import Mathlib

/-!
Shallow embedding of the `remindctl` dispatcher
(src/remindctl/__main__.py, src/remindctl/commands/{add,section,subtask}.py).

The dispatcher parses a command line, validates per-operation required
flags, locates a sibling executable on the filesystem, runs it, and relays
its captured output.  We model:

* the filesystem as a predicate `Fs : String → Bool` (which paths exist);
* the external binary as a `Runner : List String → Nat × String × String`
  mapping an argument vector to (returncode, stdout, stderr);
* each handler (`run_add_cmd`, `run_section_cmd`, `run_subtask_cmd`) as a
  pure function returning the list of spawned argument vectors, the writes
  made to standard output (in order), and the exception propagated to the
  router, if any;
* the top-level router of `__main__.py` (argument dispatch and the
  try/except around `args.func(args)`).

Optional string flags are `Option String`; Python truthiness (`if args.x:`)
makes both `None` and the empty string falsy, captured by `truthy`.
-/

namespace Remindctl

/-- Python truthiness of an optional string flag: `None` and `""` are falsy. -/
def truthy : Option String → Bool
  | none => false
  | some s => !s.isEmpty

/-- `os.path.join` for one component (POSIX). -/
def joinPath (dir name : String) : String := dir ++ "/" ++ name

/-- The two directories each command module derives from its own location:
`script_dir = dirname(abspath(__file__))` is the `commands` directory,
`packageDir = dirname(script_dir)` is the `remindctl` package directory, and
`projectRoot = dirname(dirname(script_dir))` is one level above the package. -/
structure Dirs where
  projectRoot : String
  packageDir : String
deriving DecidableEq

/-- The filesystem: which absolute paths exist (`os.path.exists`). -/
abbrev Fs := String → Bool

/-- The external binary, as observed by `subprocess.run(cmd, capture_output=True,
text=True)`: an argument vector maps to (returncode, stdout, stderr). -/
abbrev Runner := List String → Nat × String × String

/-- Python exceptions raised by the handlers and caught (or re-raised) around
`subprocess.run`; `main` catches all of them. -/
inductive PyError where
  | fileNotFound (msg : String)
  | valueError (msg : String)
  | calledProcess (cmd : List String) (returncode : Nat) (stdout stderr : String)
deriving DecidableEq

/-- A single-quote character, as a string (written via its code point to keep
quote characters out of literals). -/
def squote : String := String.singleton (Char.ofNat 39)

/-- Python `repr` of a string, for the strings appearing in this development
(no quote characters or escapes inside). -/
def pyRepr (s : String) : String := squote ++ s ++ squote

/-- Python `str` of a list of strings, e.g. `['a', 'b']`. -/
def pyReprList (xs : List String) : String :=
  "[" ++ String.intercalate ", " (xs.map pyRepr) ++ "]"

/-- `str(subprocess.CalledProcessError(returncode, cmd))` for a positive
returncode. -/
def cpeStr (cmd : List String) (returncode : Nat) : String :=
  "Command " ++ pyRepr (pyReprList cmd) ++ " returned non-zero exit status "
    ++ toString returncode ++ "."

/-- `str(e)` for each modelled exception. -/
def pyStr : PyError → String
  | .fileNotFound m => m
  | .valueError m => m
  | .calledProcess cmd code _ _ => cpeStr cmd code

/-- Observable outcome of one handler call: the argument vectors passed to
`subprocess.run` (in order), the strings written to standard output (in
order, one entry per `print` call, newlines included where Python adds
them), and the exception that escapes to `main`, if any. -/
structure HandlerResult where
  spawned : List (List String)
  out : List String
  err : Option PyError
deriving DecidableEq

/-- The `try: result = subprocess.run(...) ... except CalledProcessError`
block shared verbatim (up to the binary's name) by all three command
modules: on exit 0 it prints the child's stdout with `end=""` and, if
non-empty, the child's stderr with `end=""`; on non-zero exit it prints
three labelled lines (each with Python's default trailing newline) and
re-raises the `CalledProcessError`. -/
def finishRun (run : Runner) (cmd_parts : List String) (binName : String) :
    HandlerResult :=
  let r := run cmd_parts
  let code := r.1
  let sout := r.2.1
  let serr := r.2.2
  if code = 0 then
    { spawned := [cmd_parts]
      out := [sout] ++ (if serr.isEmpty then [] else [serr])
      err := none }
  else
    { spawned := [cmd_parts]
      out := ["Error running " ++ binName ++ ": " ++ cpeStr cmd_parts code ++ "\n",
              "Stdout: " ++ sout ++ "\n",
              "Stderr: " ++ serr ++ "\n"]
      err := some (.calledProcess cmd_parts code sout serr) }

/-- The locator used by `section.py` and `subtask.py`: take the primary path;
if it does not exist, replace it by the fallback; return it if it exists. -/
def locateWithFallback (fs : Fs) (primary fallback : String) : Option String :=
  let path := if fs primary then primary else fallback
  if fs path then some path else none

/-- `run_add_cmd` (src/remindctl/commands/add.py).  Note the module checks
only the project-root path (no fallback) and raises before any validation
when the binary is missing. -/
def run_add_cmd (d : Dirs) (fs : Fs) (run : Runner)
    (title : String) (section_id list_id : Option String) : HandlerResult :=
  let reminderctl_path := joinPath d.projectRoot "reminderctl"
  if fs reminderctl_path then
    let base := [reminderctl_path, "add", title]
    if truthy section_id then
      finishRun run (base ++ ["--section", section_id.getD ""]) "reminderctl"
    else if truthy list_id then
      finishRun run (base ++ ["--list", list_id.getD ""]) "reminderctl"
    else
      { spawned := [], out := []
        err := some (.valueError "Either --section or --list must be specified") }
  else
    { spawned := [], out := []
      err := some (.fileNotFound ("reminderctl binary not found at "
        ++ reminderctl_path ++ ". Make sure to compile reminderctl.swift first.")) }

/-- `run_section_cmd` (src/remindctl/commands/section.py): locate `sectionctl`
(primary path under the project root, fallback beside the package), then
per-operation validation and argument-vector construction. -/
def run_section_cmd (d : Dirs) (fs : Fs) (run : Runner) (operation : String)
    (list_id section_id display_name : Option String) : HandlerResult :=
  match locateWithFallback fs (joinPath d.projectRoot "sectionctl")
      (joinPath d.packageDir "sectionctl") with
  | none =>
    { spawned := [], out := []
      err := some (.fileNotFound ("sectionctl binary not found. Expected at "
        ++ joinPath d.projectRoot "sectionctl"
        ++ ". Make sure to compile sectionctl.swift first.")) }
  | some sectionctl_path =>
    let base := [sectionctl_path, operation]
    if operation = "create" then
      if !truthy list_id || !truthy display_name then
        { spawned := [], out := []
          err := some (.valueError
            "Both --list-id and --display-name are required for create operation.") }
      else
        finishRun run (base ++ [list_id.getD "", display_name.getD ""]) "sectionctl"
    else if operation = "list" then
      if truthy list_id then
        finishRun run (base ++ [list_id.getD ""]) "sectionctl"
      else
        finishRun run base "sectionctl"
    else if operation = "update" then
      if !truthy section_id || !truthy display_name then
        { spawned := [], out := []
          err := some (.valueError
            "Both --section-id and --display-name are required for update operation.") }
      else
        finishRun run (base ++ [section_id.getD "", display_name.getD ""]) "sectionctl"
    else if operation = "delete" then
      if !truthy section_id then
        { spawned := [], out := []
          err := some (.valueError "--section-id is required for delete operation.") }
      else
        finishRun run (base ++ [section_id.getD ""]) "sectionctl"
    else if operation = "lists" then
      finishRun run base "sectionctl"
    else
      { spawned := [], out := []
        err := some (.valueError ("Unsupported section operation: " ++ operation)) }

/-- `run_subtask_cmd` (src/remindctl/commands/subtask.py): locate `subtaskctl`
(primary path under the project root, fallback beside the package), then
per-operation validation and argument-vector construction. -/
def run_subtask_cmd (d : Dirs) (fs : Fs) (run : Runner) (operation : String)
    (parent_id subtask_id title new_title : Option String) : HandlerResult :=
  match locateWithFallback fs (joinPath d.projectRoot "subtaskctl")
      (joinPath d.packageDir "subtaskctl") with
  | none =>
    { spawned := [], out := []
      err := some (.fileNotFound ("subtaskctl binary not found. Expected at "
        ++ joinPath d.projectRoot "subtaskctl"
        ++ ". Make sure to compile subtaskctl.swift first.")) }
  | some subtaskctl_path =>
    let base := [subtaskctl_path, operation]
    if operation = "create" then
      if !truthy parent_id || !truthy title then
        { spawned := [], out := []
          err := some (.valueError
            "Both --parent-id and --title are required for create operation.") }
      else
        finishRun run (base ++ [parent_id.getD "", title.getD ""]) "subtaskctl"
    else if operation = "list" then
      if !truthy parent_id then
        { spawned := [], out := []
          err := some (.valueError "--parent-id is required for list operation.") }
      else
        finishRun run (base ++ [parent_id.getD ""]) "subtaskctl"
    else if operation = "update" then
      if !truthy subtask_id then
        { spawned := [], out := []
          err := some (.valueError "--subtask-id is required for update operation.") }
      else
        finishRun run
          (base ++ [subtask_id.getD ""]
            ++ (if truthy new_title then [new_title.getD ""] else [])) "subtaskctl"
    else if operation = "delete" then
      if !truthy subtask_id then
        { spawned := [], out := []
          err := some (.valueError "--subtask-id is required for delete operation.") }
      else
        finishRun run (base ++ [subtask_id.getD ""]) "subtaskctl"
    else
      { spawned := [], out := []
        err := some (.valueError ("Unsupported subtask operation: " ++ operation)) }

/-- The subcommand names registered on the top-level argparse subparsers in
`__main__.py`'s `main`: only `subtask_parser(subparsers)` is called there
(`add_parser` and `section_parser` exist in their modules but are never
registered). -/
def registeredCommands : List String := ["subtask"]

/-- Outcome of the top-level argument parse and dispatch decision in `main`,
at the granularity of the first (subcommand) token:
no subcommand → `parser.print_help(); sys.exit(0)`;
an unregistered subcommand token → argparse itself rejects it as an invalid
choice, printing usage and an error to standard error and exiting with
status 2; a registered one → dispatch to its handler. -/
inductive RouteStep where
  | helpExit (code : Nat)
  | argparseErrorExit (code : Nat)
  | dispatchSubtask
deriving DecidableEq

/-- The top-level routing decision of `main` on the subcommand token. -/
def routeToplevel : Option String → RouteStep
  | none => .helpExit 0
  | some c =>
    if registeredCommands.contains c then .dispatchSubtask
    else .argparseErrorExit 2

/-- Process-level outcome of one `remindctl` run reaching a handler: exit
status, writes to standard output, writes to standard error. -/
structure MainResult where
  exitCode : Nat
  out : List String
  err : List String
deriving DecidableEq

/-- The `try: args.func(args) except Exception as e` wrapper in `main`
(src/remindctl/__main__.py): an escaping exception is printed to standard
error as `Error: <str(e)>` (with Python's trailing newline) and the process
exits 1; otherwise `main` returns and the process exits 0. -/
def routerWrap (h : HandlerResult) : MainResult :=
  match h.err with
  | none => { exitCode := 0, out := h.out, err := [] }
  | some e => { exitCode := 1, out := h.out, err := ["Error: " ++ pyStr e ++ "\n"] }

/-! ### Concrete fixtures used in closed statements -/

/-- A concrete directory layout: package at `/proj/remindctl`, project root
`/proj`. -/
def d0 : Dirs := ⟨"/proj", "/proj/remindctl"⟩

/-- A filesystem on which every path exists. -/
def fsAll : Fs := fun _ => true

/-- A filesystem on which no path exists. -/
def noFs : Fs := fun _ => false

/-- A filesystem on which only the fallback location of `reminderctl`
(beside the package directory of `d0`) exists. -/
def fbOnlyFs : Fs := fun p => p == "/proj/remindctl/reminderctl"

/-- A child that exits 0 with output on both streams. -/
def runOk : Runner := fun _ => (0, "hello\n", "warn\n")

/-- A child that exits 3 with output on both streams. -/
def runFail : Runner := fun _ => (3, "out", "err")

/-- A child that exits 0 silently. -/
def silentRun : Runner := fun _ => (0, "", "")

/-! ### Shared helper lemmas -/

theorem truthy_none : truthy none = false := rfl

theorem truthy_some_empty : truthy (some "") = false := rfl

theorem truthy_some_of_ne {s : String} (h : s ≠ "") : truthy (some s) = true := by
  show (!s.isEmpty) = true
  cases hs : s.isEmpty
  · rfl
  · exact absurd ((String.isEmpty_iff s).mp hs) h

/-- `subprocess.run` is called on exactly the built vector, whatever the
child then does. -/
theorem finishRun_spawned (run : Runner) (cmd : List String) (bin : String) :
    (finishRun run cmd bin).spawned = [cmd] := by
  unfold finishRun
  by_cases h : (run cmd).1 = 0 <;> simp [h]

/-- C1: the claim says `add`, `section` and `subtask` all dispatch to their
registered handlers.  In the code only `subtask_parser` is registered in
`main` (src/remindctl/__main__.py), so argparse rejects `add` and `section`
as invalid choices (usage error, exit status 2) and only `subtask`
dispatches.  This theorem evaluates the router at those tokens. -/
theorem C1_add_section_unregistered :
    routeToplevel (some "add") = .argparseErrorExit 2 ∧
    routeToplevel (some "section") = .argparseErrorExit 2 ∧
    routeToplevel (some "subtask") = .dispatchSubtask ∧
    registeredCommands = ["subtask"] := by
  refine ⟨rfl, rfl, ?_, rfl⟩
  rfl

/-- With the `reminderctl` binary absent from its single search location,
`run_add_cmd` raises `FileNotFoundError` whatever the arguments are. -/
theorem add_unlocated (d : Dirs) (fs : Fs) (run : Runner)
    (title : String) (sid lid : Option String)
    (h : fs (joinPath d.projectRoot "reminderctl") = false) :
    run_add_cmd d fs run title sid lid =
      ⟨[], [], some (.fileNotFound ("reminderctl binary not found at "
        ++ joinPath d.projectRoot "reminderctl"
        ++ ". Make sure to compile reminderctl.swift first."))⟩ := by
  simp [run_add_cmd, h]

/-- With the binary located but both flags falsy, `run_add_cmd` raises the
missing-field `ValueError` and spawns nothing. -/
theorem add_missing (d : Dirs) (fs : Fs) (run : Runner)
    (title : String) (sid lid : Option String)
    (hfs : fs (joinPath d.projectRoot "reminderctl") = true)
    (h1 : truthy sid = false) (h2 : truthy lid = false) :
    run_add_cmd d fs run title sid lid =
      ⟨[], [], some (.valueError "Either --section or --list must be specified")⟩ := by
  simp [run_add_cmd, hfs, h1, h2]

/-- With `sectionctl` absent from both search locations, `run_section_cmd`
raises `FileNotFoundError` naming the primary path, whatever the
arguments. -/
theorem section_unlocated (d : Dirs) (fs : Fs) (run : Runner)
    (op : String) (lid sid dn : Option String)
    (hloc : locateWithFallback fs (joinPath d.projectRoot "sectionctl")
      (joinPath d.packageDir "sectionctl") = none) :
    run_section_cmd d fs run op lid sid dn =
      ⟨[], [], some (.fileNotFound ("sectionctl binary not found. Expected at "
        ++ joinPath d.projectRoot "sectionctl"
        ++ ". Make sure to compile sectionctl.swift first."))⟩ := by
  simp [run_section_cmd, hloc]

/-- With `subtaskctl` absent from both search locations, `run_subtask_cmd`
raises `FileNotFoundError` naming the primary path, whatever the
arguments. -/
theorem subtask_unlocated (d : Dirs) (fs : Fs) (run : Runner)
    (op : String) (pid sid t nt : Option String)
    (hloc : locateWithFallback fs (joinPath d.projectRoot "subtaskctl")
      (joinPath d.packageDir "subtaskctl") = none) :
    run_subtask_cmd d fs run op pid sid t nt =
      ⟨[], [], some (.fileNotFound ("subtaskctl binary not found. Expected at "
        ++ joinPath d.projectRoot "subtaskctl"
        ++ ". Make sure to compile subtaskctl.swift first."))⟩ := by
  simp [run_subtask_cmd, hloc]

theorem section_create_missing (d : Dirs) (fs : Fs) (run : Runner)
    (p : String) (lid sid dn : Option String)
    (hloc : locateWithFallback fs (joinPath d.projectRoot "sectionctl")
      (joinPath d.packageDir "sectionctl") = some p)
    (h : truthy lid = false ∨ truthy dn = false) :
    run_section_cmd d fs run "create" lid sid dn =
      ⟨[], [], some (.valueError
        "Both --list-id and --display-name are required for create operation.")⟩ := by
  rcases h with h | h <;> simp [run_section_cmd, hloc, h]

theorem section_update_missing (d : Dirs) (fs : Fs) (run : Runner)
    (p : String) (lid sid dn : Option String)
    (hloc : locateWithFallback fs (joinPath d.projectRoot "sectionctl")
      (joinPath d.packageDir "sectionctl") = some p)
    (h : truthy sid = false ∨ truthy dn = false) :
    run_section_cmd d fs run "update" lid sid dn =
      ⟨[], [], some (.valueError
        "Both --section-id and --display-name are required for update operation.")⟩ := by
  rcases h with h | h <;> simp [run_section_cmd, hloc, h]

theorem section_delete_missing (d : Dirs) (fs : Fs) (run : Runner)
    (p : String) (lid sid dn : Option String)
    (hloc : locateWithFallback fs (joinPath d.projectRoot "sectionctl")
      (joinPath d.packageDir "sectionctl") = some p)
    (h : truthy sid = false) :
    run_section_cmd d fs run "delete" lid sid dn =
      ⟨[], [], some (.valueError "--section-id is required for delete operation.")⟩ := by
  simp [run_section_cmd, hloc, h]

theorem subtask_create_missing (d : Dirs) (fs : Fs) (run : Runner)
    (p : String) (pid sid t nt : Option String)
    (hloc : locateWithFallback fs (joinPath d.projectRoot "subtaskctl")
      (joinPath d.packageDir "subtaskctl") = some p)
    (h : truthy pid = false ∨ truthy t = false) :
    run_subtask_cmd d fs run "create" pid sid t nt =
      ⟨[], [], some (.valueError
        "Both --parent-id and --title are required for create operation.")⟩ := by
  rcases h with h | h <;> simp [run_subtask_cmd, hloc, h]

theorem subtask_list_missing (d : Dirs) (fs : Fs) (run : Runner)
    (p : String) (pid sid t nt : Option String)
    (hloc : locateWithFallback fs (joinPath d.projectRoot "subtaskctl")
      (joinPath d.packageDir "subtaskctl") = some p)
    (h : truthy pid = false) :
    run_subtask_cmd d fs run "list" pid sid t nt =
      ⟨[], [], some (.valueError "--parent-id is required for list operation.")⟩ := by
  simp [run_subtask_cmd, hloc, h]

theorem subtask_update_missing (d : Dirs) (fs : Fs) (run : Runner)
    (p : String) (pid sid t nt : Option String)
    (hloc : locateWithFallback fs (joinPath d.projectRoot "subtaskctl")
      (joinPath d.packageDir "subtaskctl") = some p)
    (h : truthy sid = false) :
    run_subtask_cmd d fs run "update" pid sid t nt =
      ⟨[], [], some (.valueError "--subtask-id is required for update operation.")⟩ := by
  simp [run_subtask_cmd, hloc, h]

theorem subtask_delete_missing (d : Dirs) (fs : Fs) (run : Runner)
    (p : String) (pid sid t nt : Option String)
    (hloc : locateWithFallback fs (joinPath d.projectRoot "subtaskctl")
      (joinPath d.packageDir "subtaskctl") = some p)
    (h : truthy sid = false) :
    run_subtask_cmd d fs run "delete" pid sid t nt =
      ⟨[], [], some (.valueError "--subtask-id is required for delete operation.")⟩ := by
  simp [run_subtask_cmd, hloc, h]

/-- C2 (counterexample): the claim says the validation rejection happens
before the executable locator runs, so the reported error is the
missing-field error.  In the code the locator runs first: `remindctl add X`
with neither `--section` nor `--list`, on a filesystem without the binary,
reports the binary-location error, not the missing-field error. -/
theorem C2_counterexample :
    (run_add_cmd d0 noFs silentRun "X" none none).err =
      some (.fileNotFound ("reminderctl binary not found at /proj/reminderctl. "
        ++ "Make sure to compile reminderctl.swift first.")) ∧
    (run_add_cmd d0 noFs silentRun "X" none none).err ≠
      some (.valueError "Either --section or --list must be specified") := by
  decide

/-- C2 (amended): for every subcommand and operation, a request missing a
required field never reaches `subprocess.run` (no child process is spawned);
and once the binary is located, the reported error is the missing-field
`ValueError`.  The Locator, however, runs before the Validator, so with the
binary absent the reported error is the location error (see the
counterexample). -/
theorem C2_no_spawn_on_missing_field :
    ∀ (d : Dirs) (fs : Fs) (run : Runner),
    (∀ title sid lid, truthy sid = false → truthy lid = false →
      (run_add_cmd d fs run title sid lid).spawned = [] ∧
      (fs (joinPath d.projectRoot "reminderctl") = true →
        (run_add_cmd d fs run title sid lid).err =
          some (.valueError "Either --section or --list must be specified"))) ∧
    (∀ lid sid dn, truthy lid = false ∨ truthy dn = false →
      (run_section_cmd d fs run "create" lid sid dn).spawned = [] ∧
      (∀ p, locateWithFallback fs (joinPath d.projectRoot "sectionctl")
          (joinPath d.packageDir "sectionctl") = some p →
        (run_section_cmd d fs run "create" lid sid dn).err =
          some (.valueError
            "Both --list-id and --display-name are required for create operation."))) ∧
    (∀ lid sid dn, truthy sid = false ∨ truthy dn = false →
      (run_section_cmd d fs run "update" lid sid dn).spawned = [] ∧
      (∀ p, locateWithFallback fs (joinPath d.projectRoot "sectionctl")
          (joinPath d.packageDir "sectionctl") = some p →
        (run_section_cmd d fs run "update" lid sid dn).err =
          some (.valueError
            "Both --section-id and --display-name are required for update operation."))) ∧
    (∀ lid sid dn, truthy sid = false →
      (run_section_cmd d fs run "delete" lid sid dn).spawned = [] ∧
      (∀ p, locateWithFallback fs (joinPath d.projectRoot "sectionctl")
          (joinPath d.packageDir "sectionctl") = some p →
        (run_section_cmd d fs run "delete" lid sid dn).err =
          some (.valueError "--section-id is required for delete operation."))) ∧
    (∀ pid sid t nt, truthy pid = false ∨ truthy t = false →
      (run_subtask_cmd d fs run "create" pid sid t nt).spawned = [] ∧
      (∀ p, locateWithFallback fs (joinPath d.projectRoot "subtaskctl")
          (joinPath d.packageDir "subtaskctl") = some p →
        (run_subtask_cmd d fs run "create" pid sid t nt).err =
          some (.valueError
            "Both --parent-id and --title are required for create operation."))) ∧
    (∀ pid sid t nt, truthy pid = false →
      (run_subtask_cmd d fs run "list" pid sid t nt).spawned = [] ∧
      (∀ p, locateWithFallback fs (joinPath d.projectRoot "subtaskctl")
          (joinPath d.packageDir "subtaskctl") = some p →
        (run_subtask_cmd d fs run "list" pid sid t nt).err =
          some (.valueError "--parent-id is required for list operation."))) ∧
    (∀ pid sid t nt, truthy sid = false →
      (run_subtask_cmd d fs run "update" pid sid t nt).spawned = [] ∧
      (∀ p, locateWithFallback fs (joinPath d.projectRoot "subtaskctl")
          (joinPath d.packageDir "subtaskctl") = some p →
        (run_subtask_cmd d fs run "update" pid sid t nt).err =
          some (.valueError "--subtask-id is required for update operation."))) ∧
    (∀ pid sid t nt, truthy sid = false →
      (run_subtask_cmd d fs run "delete" pid sid t nt).spawned = [] ∧
      (∀ p, locateWithFallback fs (joinPath d.projectRoot "subtaskctl")
          (joinPath d.packageDir "subtaskctl") = some p →
        (run_subtask_cmd d fs run "delete" pid sid t nt).err =
          some (.valueError "--subtask-id is required for delete operation."))) := by
  intro d fs run
  refine ⟨?_, ?_, ?_, ?_, ?_, ?_, ?_, ?_⟩
  · intro title sid lid h1 h2
    constructor
    · by_cases hfs : fs (joinPath d.projectRoot "reminderctl") = true
      · rw [add_missing d fs run title sid lid hfs h1 h2]
      · rw [add_unlocated d fs run title sid lid (by simpa using hfs)]
    · intro hfs
      rw [add_missing d fs run title sid lid hfs h1 h2]
  · intro lid sid dn h
    cases hloc : locateWithFallback fs (joinPath d.projectRoot "sectionctl")
        (joinPath d.packageDir "sectionctl") with
    | none =>
      refine ⟨by rw [section_unlocated d fs run "create" lid sid dn hloc], ?_⟩
      intro p hp
      exact absurd hp (by simp)
    | some q =>
      refine ⟨by rw [section_create_missing d fs run q lid sid dn hloc h], ?_⟩
      intro p hp
      rw [section_create_missing d fs run q lid sid dn hloc h]
  · intro lid sid dn h
    cases hloc : locateWithFallback fs (joinPath d.projectRoot "sectionctl")
        (joinPath d.packageDir "sectionctl") with
    | none =>
      refine ⟨by rw [section_unlocated d fs run "update" lid sid dn hloc], ?_⟩
      intro p hp
      exact absurd hp (by simp)
    | some q =>
      refine ⟨by rw [section_update_missing d fs run q lid sid dn hloc h], ?_⟩
      intro p hp
      rw [section_update_missing d fs run q lid sid dn hloc h]
  · intro lid sid dn h
    cases hloc : locateWithFallback fs (joinPath d.projectRoot "sectionctl")
        (joinPath d.packageDir "sectionctl") with
    | none =>
      refine ⟨by rw [section_unlocated d fs run "delete" lid sid dn hloc], ?_⟩
      intro p hp
      exact absurd hp (by simp)
    | some q =>
      refine ⟨by rw [section_delete_missing d fs run q lid sid dn hloc h], ?_⟩
      intro p hp
      rw [section_delete_missing d fs run q lid sid dn hloc h]
  · intro pid sid t nt h
    cases hloc : locateWithFallback fs (joinPath d.projectRoot "subtaskctl")
        (joinPath d.packageDir "subtaskctl") with
    | none =>
      refine ⟨by rw [subtask_unlocated d fs run "create" pid sid t nt hloc], ?_⟩
      intro p hp
      exact absurd hp (by simp)
    | some q =>
      refine ⟨by rw [subtask_create_missing d fs run q pid sid t nt hloc h], ?_⟩
      intro p hp
      rw [subtask_create_missing d fs run q pid sid t nt hloc h]
  · intro pid sid t nt h
    cases hloc : locateWithFallback fs (joinPath d.projectRoot "subtaskctl")
        (joinPath d.packageDir "subtaskctl") with
    | none =>
      refine ⟨by rw [subtask_unlocated d fs run "list" pid sid t nt hloc], ?_⟩
      intro p hp
      exact absurd hp (by simp)
    | some q =>
      refine ⟨by rw [subtask_list_missing d fs run q pid sid t nt hloc h], ?_⟩
      intro p hp
      rw [subtask_list_missing d fs run q pid sid t nt hloc h]
  · intro pid sid t nt h
    cases hloc : locateWithFallback fs (joinPath d.projectRoot "subtaskctl")
        (joinPath d.packageDir "subtaskctl") with
    | none =>
      refine ⟨by rw [subtask_unlocated d fs run "update" pid sid t nt hloc], ?_⟩
      intro p hp
      exact absurd hp (by simp)
    | some q =>
      refine ⟨by rw [subtask_update_missing d fs run q pid sid t nt hloc h], ?_⟩
      intro p hp
      rw [subtask_update_missing d fs run q pid sid t nt hloc h]
  · intro pid sid t nt h
    cases hloc : locateWithFallback fs (joinPath d.projectRoot "subtaskctl")
        (joinPath d.packageDir "subtaskctl") with
    | none =>
      refine ⟨by rw [subtask_unlocated d fs run "delete" pid sid t nt hloc], ?_⟩
      intro p hp
      exact absurd hp (by simp)
    | some q =>
      refine ⟨by rw [subtask_delete_missing d fs run q pid sid t nt hloc h], ?_⟩
      intro p hp
      rw [subtask_delete_missing d fs run q pid sid t nt hloc h]

/-- C2 (witness): concrete instances of the amended theorem. -/
theorem C2_no_spawn_on_missing_field_witness :
    (run_add_cmd d0 noFs silentRun "X" none none).spawned = [] ∧
    (run_section_cmd d0 fsAll silentRun "create" none none (some "W")).spawned = [] ∧
    (run_section_cmd d0 fsAll silentRun "create" none none (some "W")).err =
      some (.valueError
        "Both --list-id and --display-name are required for create operation.") ∧
    (run_subtask_cmd d0 fsAll silentRun "update" none none none none).err =
      some (.valueError "--subtask-id is required for update operation.") := by
  refine ⟨((C2_no_spawn_on_missing_field d0 noFs silentRun).1 "X" none none rfl rfl).1,
    ((C2_no_spawn_on_missing_field d0 fsAll silentRun).2.1 none none (some "W")
      (Or.inl rfl)).1, ?_, ?_⟩
  · exact ((C2_no_spawn_on_missing_field d0 fsAll silentRun).2.1 none none (some "W")
      (Or.inl rfl)).2 (joinPath d0.projectRoot "sectionctl") rfl
  · exact ((C2_no_spawn_on_missing_field d0 fsAll silentRun).2.2.2.2.2.2.1
      none none none none rfl).2 (joinPath d0.projectRoot "subtaskctl") rfl

/-- C3 (counterexample): the claim says every subcommand's locator falls
back to the path beside the package directory.  `run_add_cmd` checks only
the project-root path: on a filesystem where just the fallback location
`/proj/remindctl/reminderctl` exists, `add` still fails with the
executable-not-found error and spawns nothing. -/
theorem C3_counterexample :
    fbOnlyFs (joinPath d0.packageDir "reminderctl") = true ∧
    (run_add_cmd d0 fbOnlyFs silentRun "T" none (some "L")).err =
      some (.fileNotFound ("reminderctl binary not found at /proj/reminderctl. "
        ++ "Make sure to compile reminderctl.swift first.")) ∧
    (run_add_cmd d0 fbOnlyFs silentRun "T" none (some "L")).spawned = [] := by
  decide

/-- C3 (amended): for `section` and `subtask` the locator checks the primary
path (project root) first, then the fallback beside the package directory,
returning the first that exists, and when neither exists the handler fails
with an executable-not-found error naming the expected primary path and
telling the operator to compile the missing `.swift` source.  The `add`
handler, however, checks only the primary path and fails whenever it is
absent, regardless of the fallback location. -/
theorem C3_locator_search_order :
    (∀ (fs : Fs) (p f : String), fs p = true → locateWithFallback fs p f = some p) ∧
    (∀ (fs : Fs) (p f : String), fs p = false → fs f = true →
      locateWithFallback fs p f = some f) ∧
    (∀ (fs : Fs) (p f : String), fs p = false → fs f = false →
      locateWithFallback fs p f = none) ∧
    (∀ (d : Dirs) (fs : Fs) (run : Runner) (op : String) (lid sid dn : Option String),
      locateWithFallback fs (joinPath d.projectRoot "sectionctl")
        (joinPath d.packageDir "sectionctl") = none →
      run_section_cmd d fs run op lid sid dn =
        ⟨[], [], some (.fileNotFound ("sectionctl binary not found. Expected at "
          ++ joinPath d.projectRoot "sectionctl"
          ++ ". Make sure to compile sectionctl.swift first."))⟩) ∧
    (∀ (d : Dirs) (fs : Fs) (run : Runner) (op : String) (pid sid t nt : Option String),
      locateWithFallback fs (joinPath d.projectRoot "subtaskctl")
        (joinPath d.packageDir "subtaskctl") = none →
      run_subtask_cmd d fs run op pid sid t nt =
        ⟨[], [], some (.fileNotFound ("subtaskctl binary not found. Expected at "
          ++ joinPath d.projectRoot "subtaskctl"
          ++ ". Make sure to compile subtaskctl.swift first."))⟩) ∧
    (∀ (d : Dirs) (fs : Fs) (run : Runner) (title : String) (sid lid : Option String),
      fs (joinPath d.projectRoot "reminderctl") = false →
      run_add_cmd d fs run title sid lid =
        ⟨[], [], some (.fileNotFound ("reminderctl binary not found at "
          ++ joinPath d.projectRoot "reminderctl"
          ++ ". Make sure to compile reminderctl.swift first."))⟩) := by
  refine ⟨?_, ?_, ?_, ?_, ?_, ?_⟩
  · intro fs p f hp
    simp [locateWithFallback, hp]
  · intro fs p f hp hf
    simp [locateWithFallback, hp, hf]
  · intro fs p f hp hf
    simp [locateWithFallback, hp, hf]
  · intro d fs run op lid sid dn hloc
    exact section_unlocated d fs run op lid sid dn hloc
  · intro d fs run op pid sid t nt hloc
    exact subtask_unlocated d fs run op pid sid t nt hloc
  · intro d fs run title sid lid h
    exact add_unlocated d fs run title sid lid h

/-- C3 (witness): concrete instances of the amended theorem. -/
theorem C3_locator_search_order_witness :
    locateWithFallback fsAll (joinPath d0.projectRoot "sectionctl")
      (joinPath d0.packageDir "sectionctl") = some (joinPath d0.projectRoot "sectionctl") ∧
    locateWithFallback fbOnlyFs "/proj/reminderctl" "/proj/remindctl/reminderctl" =
      some "/proj/remindctl/reminderctl" ∧
    locateWithFallback noFs "/proj/subtaskctl" "/proj/remindctl/subtaskctl" = none ∧
    run_subtask_cmd d0 noFs silentRun "list" (some "P") none none none =
      ⟨[], [], some (.fileNotFound ("subtaskctl binary not found. Expected at "
        ++ joinPath d0.projectRoot "subtaskctl"
        ++ ". Make sure to compile subtaskctl.swift first."))⟩ ∧
    run_add_cmd d0 noFs silentRun "T" none (some "L") =
      ⟨[], [], some (.fileNotFound ("reminderctl binary not found at "
        ++ joinPath d0.projectRoot "reminderctl"
        ++ ". Make sure to compile reminderctl.swift first."))⟩ := by
  obtain ⟨h1, h2, h3, h4, h5, h6⟩ := C3_locator_search_order
  exact ⟨h1 fsAll _ _ rfl,
    h2 fbOnlyFs "/proj/reminderctl" "/proj/remindctl/reminderctl" (by decide) (by decide),
    h3 noFs "/proj/subtaskctl" "/proj/remindctl/subtaskctl" rfl rfl,
    h5 d0 noFs silentRun "list" (some "P") none none none (by decide),
    h6 d0 noFs silentRun "T" none (some "L") rfl⟩

/-- C4: argument-vector construction in `run_add_cmd` (binary located, flag
values non-empty): with only `--list` the vector is
`[binary, "add", title, "--list", list_id]`; with `--section` given the
vector is `[binary, "add", title, "--section", section_id]`, and since the
second part quantifies over the simultaneous `--list` value, a `--list`
given together with `--section` is silently dropped from the vector. -/
theorem C4_add_argv (d : Dirs) (fs : Fs) (run : Runner) (title : String)
    (hfs : fs (joinPath d.projectRoot "reminderctl") = true) :
    (∀ l, l ≠ "" →
      (run_add_cmd d fs run title none (some l)).spawned =
        [[joinPath d.projectRoot "reminderctl", "add", title, "--list", l]]) ∧
    (∀ s lid, s ≠ "" →
      (run_add_cmd d fs run title (some s) lid).spawned =
        [[joinPath d.projectRoot "reminderctl", "add", title, "--section", s]]) := by
  constructor
  · intro l hl
    simp [run_add_cmd, hfs, truthy_some_of_ne hl, truthy_none, finishRun_spawned]
  · intro s lid hs
    simp [run_add_cmd, hfs, truthy_some_of_ne hs, finishRun_spawned]

/-- C4 (witness): the spec example `add "Buy milk" --list Groceries`, and
the same with both flags given. -/
theorem C4_add_argv_witness :
    (run_add_cmd d0 fsAll runOk "Buy milk" none (some "Groceries")).spawned =
      [[joinPath d0.projectRoot "reminderctl", "add", "Buy milk", "--list", "Groceries"]] ∧
    (run_add_cmd d0 fsAll runOk "Buy milk" (some "S1") (some "Groceries")).spawned =
      [[joinPath d0.projectRoot "reminderctl", "add", "Buy milk", "--section", "S1"]] := by
  have h := C4_add_argv d0 fsAll runOk "Buy milk" rfl
  exact ⟨h.1 "Groceries" (by decide), h.2 "S1" (some "Groceries") (by decide)⟩

/-- C5: for `section create` with the binary located at `p`: if the list
identifier or the display name is falsy, the handler raises the
missing-required-field `ValueError` and spawns nothing (and prints
nothing); with both present and non-empty the spawned vector is exactly
`[p, "create", list_id, display_name]`. -/
theorem C5_section_create (d : Dirs) (fs : Fs) (run : Runner) (p : String)
    (hloc : locateWithFallback fs (joinPath d.projectRoot "sectionctl")
      (joinPath d.packageDir "sectionctl") = some p) :
    (∀ lid sid dn, truthy lid = false ∨ truthy dn = false →
      run_section_cmd d fs run "create" lid sid dn =
        ⟨[], [], some (.valueError
          "Both --list-id and --display-name are required for create operation.")⟩) ∧
    (∀ l n sid, l ≠ "" → n ≠ "" →
      (run_section_cmd d fs run "create" (some l) sid (some n)).spawned =
        [[p, "create", l, n]]) := by
  constructor
  · exact fun lid sid dn h => section_create_missing d fs run p lid sid dn hloc h
  · intro l n sid hl hn
    simp [run_section_cmd, hloc, truthy_some_of_ne hl, truthy_some_of_ne hn,
      finishRun_spawned]

/-- C5 (witness): the spec example
`section create --list-id L1 --display-name "Work"`, and a rejected call
missing the display name. -/
theorem C5_section_create_witness :
    run_section_cmd d0 fsAll silentRun "create" (some "L1") none none =
      ⟨[], [], some (.valueError
        "Both --list-id and --display-name are required for create operation.")⟩ ∧
    (run_section_cmd d0 fsAll silentRun "create" (some "L1") none (some "Work")).spawned =
      [[joinPath d0.projectRoot "sectionctl", "create", "L1", "Work"]] := by
  have h := C5_section_create d0 fsAll silentRun (joinPath d0.projectRoot "sectionctl") rfl
  exact ⟨h.1 (some "L1") none none (Or.inr rfl), h.2 "L1" "Work" none (by decide) (by decide)⟩

/-- C6: for `subtask update` with the binary located at `p`: a falsy subtask
identifier is a validation error (nothing spawned, nothing printed); with a
non-empty identifier and no `--new-title` the spawned vector is exactly
`[p, "update", subtask_id]` — three entries, no empty-string title. -/
theorem C6_subtask_update (d : Dirs) (fs : Fs) (run : Runner) (p : String)
    (hloc : locateWithFallback fs (joinPath d.projectRoot "subtaskctl")
      (joinPath d.packageDir "subtaskctl") = some p) :
    (∀ pid sid t nt, truthy sid = false →
      run_subtask_cmd d fs run "update" pid sid t nt =
        ⟨[], [], some (.valueError "--subtask-id is required for update operation.")⟩) ∧
    (∀ s pid t, s ≠ "" →
      (run_subtask_cmd d fs run "update" pid (some s) t none).spawned =
        [[p, "update", s]]) := by
  constructor
  · exact fun pid sid t nt h => subtask_update_missing d fs run p pid sid t nt hloc h
  · intro s pid t hs
    simp [run_subtask_cmd, hloc, truthy_some_of_ne hs, truthy_none, finishRun_spawned]

/-- C6 (witness): the spec example `subtask update --subtask-id S1` with no
new title, and the rejected call without the identifier. -/
theorem C6_subtask_update_witness :
    run_subtask_cmd d0 fsAll silentRun "update" none none none none =
      ⟨[], [], some (.valueError "--subtask-id is required for update operation.")⟩ ∧
    (run_subtask_cmd d0 fsAll silentRun "update" none (some "S1") none none).spawned =
      [[joinPath d0.projectRoot "subtaskctl", "update", "S1"]] := by
  have h := C6_subtask_update d0 fsAll silentRun (joinPath d0.projectRoot "subtaskctl") rfl
  exact ⟨h.1 none none none none rfl, h.2 "S1" none none (by decide)⟩

/-- C7 (counterexample): the claim says an unrecognized subcommand prints
usage and exits with status 1.  With only `subtask` registered, argparse
rejects the token itself, printing usage plus an invalid-choice message to
standard error and exiting with status 2, not 1. -/
theorem C7_counterexample :
    routeToplevel (some "foo") = .argparseErrorExit 2 ∧
    routeToplevel (some "foo") ≠ .helpExit 1 := by
  decide

/-- C7 (amended): with no subcommand the router prints the top-level help
and exits with status 0; with an unregistered subcommand token argparse
prints usage and an error to standard error and exits with status 2. -/
theorem C7_router_exit_status (c : String)
    (h : registeredCommands.contains c = false) :
    routeToplevel none = .helpExit 0 ∧
    routeToplevel (some c) = .argparseErrorExit 2 := by
  refine ⟨rfl, ?_⟩
  have h2 : c ∉ registeredCommands := by simpa using h
  simp [routeToplevel, h2]

/-- C7 (witness): the amended theorem at the unregistered token `foo`. -/
theorem C7_router_exit_status_witness :
    routeToplevel none = .helpExit 0 ∧
    routeToplevel (some "foo") = .argparseErrorExit 2 :=
  C7_router_exit_status "foo" (by decide)

/-- C8 (counterexample): the claim says a non-zero child exit makes the
dispatcher reproduce the child's captured stdout and stderr verbatim for
the caller.  With a child writing `out` / `err` and exiting 3, the
dispatcher exits 1, but no write to either stream equals the captured text:
each is embedded in a labelled `Stdout: ` / `Stderr: ` line (with an added
trailing newline) on standard output. -/
theorem C8_counterexample :
    (routerWrap (finishRun runFail ["/proj/subtaskctl", "update", "S1"] "subtaskctl")).exitCode
      = 1 ∧
    "out" ∉ (routerWrap (finishRun runFail ["/proj/subtaskctl", "update", "S1"] "subtaskctl")).out ∧
    "err" ∉ (routerWrap (finishRun runFail ["/proj/subtaskctl", "update", "S1"] "subtaskctl")).out ∧
    "out" ∉ (routerWrap (finishRun runFail ["/proj/subtaskctl", "update", "S1"] "subtaskctl")).err ∧
    "err" ∉ (routerWrap (finishRun runFail ["/proj/subtaskctl", "update", "S1"] "subtaskctl")).err := by
  decide

/-- C8 (amended): when the external binary starts and exits non-zero, the
dispatcher exits with status 1 and writes one line to standard error
prefixed `Error: ` (carrying the `CalledProcessError` text); the child's
captured stdout and stderr are echoed to standard output as labelled
`Stdout: ` / `Stderr: ` lines after an `Error running <binary>` line — not
verbatim.  Stated over `finishRun`, the invoke-and-relay block shared by
all three handlers, wrapped by the router's exception handler. -/
theorem C8_failure_reporting (run : Runner) (cmd : List String) (bin : String)
    (code : Nat) (sout serr : String)
    (hr : run cmd = (code, sout, serr)) (hc : code ≠ 0) :
    routerWrap (finishRun run cmd bin) =
      ⟨1,
       ["Error running " ++ bin ++ ": " ++ cpeStr cmd code ++ "\n",
        "Stdout: " ++ sout ++ "\n",
        "Stderr: " ++ serr ++ "\n"],
       ["Error: " ++ cpeStr cmd code ++ "\n"]⟩ := by
  simp [finishRun, routerWrap, pyStr, hr, hc]

/-- C8 (witness): the amended theorem at a concrete failing child. -/
theorem C8_failure_reporting_witness :
    routerWrap (finishRun runFail ["/proj/subtaskctl", "update", "S1"] "subtaskctl") =
      ⟨1,
       ["Error running " ++ "subtaskctl" ++ ": "
          ++ cpeStr ["/proj/subtaskctl", "update", "S1"] 3 ++ "\n",
        "Stdout: " ++ "out" ++ "\n",
        "Stderr: " ++ "err" ++ "\n"],
       ["Error: " ++ cpeStr ["/proj/subtaskctl", "update", "S1"] 3 ++ "\n"]⟩ :=
  C8_failure_reporting runFail ["/proj/subtaskctl", "update", "S1"] "subtaskctl"
    3 "out" "err" rfl (by decide)

/-- C9: when the external binary starts and exits zero, the dispatcher
writes the captured stdout first and unconditionally, then the captured
stderr only when it is non-empty, and exits with status 0.  Stated over
`finishRun`, the invoke-and-relay block shared by all three handlers,
wrapped by the router's exception handler. -/
theorem C9_success_relay (run : Runner) (cmd : List String) (bin : String)
    (sout serr : String) (hr : run cmd = (0, sout, serr)) :
    routerWrap (finishRun run cmd bin) =
      ⟨0, [sout] ++ (if serr.isEmpty then [] else [serr]), []⟩ := by
  simp [finishRun, routerWrap, hr]

/-- C9 (witness): a child exiting 0 with non-empty output on both streams
is relayed stdout-first, then stderr, with process exit status 0. -/
theorem C9_success_relay_witness :
    routerWrap (finishRun runOk ["/proj/reminderctl", "add", "Buy milk", "--list", "Groceries"]
        "reminderctl") =
      ⟨0, ["hello\n", "warn\n"], []⟩ :=
  (C9_success_relay runOk ["/proj/reminderctl", "add", "Buy milk", "--list", "Groceries"]
    "reminderctl" "hello\n" "warn\n" rfl).trans (by decide)

/-- C10: the validator treats an empty-string flag value like an absent
flag.  With the binary located: every required field passed as `""` raises
the same missing-required-field `ValueError` and spawns nothing, for every
operation of all three handlers; and `subtask update` with `--new-title ""`
builds the three-entry vector with the title omitted, exactly as with no
`--new-title` at all. -/
theorem C10_empty_string_flags (d : Dirs) (fs : Fs) (run : Runner) :
    (fs (joinPath d.projectRoot "reminderctl") = true →
      ∀ title, run_add_cmd d fs run title (some "") (some "") =
        ⟨[], [], some (.valueError "Either --section or --list must be specified")⟩) ∧
    (∀ p, locateWithFallback fs (joinPath d.projectRoot "sectionctl")
        (joinPath d.packageDir "sectionctl") = some p →
      (∀ sid dn, run_section_cmd d fs run "create" (some "") sid dn =
        ⟨[], [], some (.valueError
          "Both --list-id and --display-name are required for create operation.")⟩) ∧
      (∀ lid sid, run_section_cmd d fs run "create" lid sid (some "") =
        ⟨[], [], some (.valueError
          "Both --list-id and --display-name are required for create operation.")⟩) ∧
      (∀ lid dn, run_section_cmd d fs run "update" lid (some "") dn =
        ⟨[], [], some (.valueError
          "Both --section-id and --display-name are required for update operation.")⟩) ∧
      (∀ lid sid, run_section_cmd d fs run "update" lid sid (some "") =
        ⟨[], [], some (.valueError
          "Both --section-id and --display-name are required for update operation.")⟩) ∧
      (∀ lid dn, run_section_cmd d fs run "delete" lid (some "") dn =
        ⟨[], [], some (.valueError "--section-id is required for delete operation.")⟩)) ∧
    (∀ p, locateWithFallback fs (joinPath d.projectRoot "subtaskctl")
        (joinPath d.packageDir "subtaskctl") = some p →
      (∀ sid t nt, run_subtask_cmd d fs run "create" (some "") sid t nt =
        ⟨[], [], some (.valueError
          "Both --parent-id and --title are required for create operation.")⟩) ∧
      (∀ pid sid nt, run_subtask_cmd d fs run "create" pid sid (some "") nt =
        ⟨[], [], some (.valueError
          "Both --parent-id and --title are required for create operation.")⟩) ∧
      (∀ sid t nt, run_subtask_cmd d fs run "list" (some "") sid t nt =
        ⟨[], [], some (.valueError "--parent-id is required for list operation.")⟩) ∧
      (∀ pid t nt, run_subtask_cmd d fs run "update" pid (some "") t nt =
        ⟨[], [], some (.valueError "--subtask-id is required for update operation.")⟩) ∧
      (∀ pid t nt, run_subtask_cmd d fs run "delete" pid (some "") t nt =
        ⟨[], [], some (.valueError "--subtask-id is required for delete operation.")⟩) ∧
      (∀ s pid t, s ≠ "" →
        (run_subtask_cmd d fs run "update" pid (some s) t (some "")).spawned =
          [[p, "update", s]])) := by
  refine ⟨?_, ?_, ?_⟩
  · intro hfs title
    exact add_missing d fs run title (some "") (some "") hfs rfl rfl
  · intro p hloc
    refine ⟨fun sid dn => ?_, fun lid sid => ?_, fun lid dn => ?_, fun lid sid => ?_,
      fun lid dn => ?_⟩
    · exact section_create_missing d fs run p (some "") sid dn hloc (Or.inl rfl)
    · exact section_create_missing d fs run p lid sid (some "") hloc (Or.inr rfl)
    · exact section_update_missing d fs run p lid (some "") dn hloc (Or.inl rfl)
    · exact section_update_missing d fs run p lid sid (some "") hloc (Or.inr rfl)
    · exact section_delete_missing d fs run p lid (some "") dn hloc rfl
  · intro p hloc
    refine ⟨fun sid t nt => ?_, fun pid sid nt => ?_, fun sid t nt => ?_,
      fun pid t nt => ?_, fun pid t nt => ?_, fun s pid t hs => ?_⟩
    · exact subtask_create_missing d fs run p (some "") sid t nt hloc (Or.inl rfl)
    · exact subtask_create_missing d fs run p pid sid (some "") nt hloc (Or.inr rfl)
    · exact subtask_list_missing d fs run p (some "") sid t nt hloc rfl
    · exact subtask_update_missing d fs run p pid (some "") t nt hloc rfl
    · exact subtask_delete_missing d fs run p pid (some "") t nt hloc rfl
    · simp [run_subtask_cmd, hloc, truthy_some_of_ne hs, truthy_some_empty,
        finishRun_spawned]

/-- C10 (witness): the claim's own examples, with every binary present:
`subtask create --parent-id "" --title T`, `section delete --section-id ""`,
and `subtask update --subtask-id S1 --new-title ""`. -/
theorem C10_empty_string_flags_witness :
    run_subtask_cmd d0 fsAll silentRun "create" (some "") none (some "T") none =
      ⟨[], [], some (.valueError
        "Both --parent-id and --title are required for create operation.")⟩ ∧
    run_section_cmd d0 fsAll silentRun "delete" none (some "") none =
      ⟨[], [], some (.valueError "--section-id is required for delete operation.")⟩ ∧
    (run_subtask_cmd d0 fsAll silentRun "update" none (some "S1") none (some "")).spawned =
      [[joinPath d0.projectRoot "subtaskctl", "update", "S1"]] := by
  have h := C10_empty_string_flags d0 fsAll silentRun
  exact ⟨(h.2.2 (joinPath d0.projectRoot "subtaskctl") rfl).1 none (some "T") none,
    (h.2.1 (joinPath d0.projectRoot "sectionctl") rfl).2.2.2.2 none none,
    (h.2.2 (joinPath d0.projectRoot "subtaskctl") rfl).2.2.2.2.2 "S1" none none (by decide)⟩

end Remindctl
